import Mathlib

/-!
Shallow embedding of the hypergrid-db-service ingestion service
(src/index.ts): the payload value model, the validator
validateProviderCallFlow, the hypergrid_events table with its
insert-or-update statement, the POST /api/data handler and the
GET /health handler, together with theorems settling the frozen
claims about this program.
-/

set_option autoImplicit false

namespace HypergridDb

/-- Model of a JavaScript/JSON value as it appears in a parsed request
body. Absence of a key (JavaScript undefined) is modelled by Option.none
at the lookup level, so no undefined constructor is needed. -/
inductive JsValue where
  | vNull
  | vBool (b : Bool)
  | vNum (q : Rat)
  | vStr (s : String)
  | vArr (elems : List JsValue)
  | vObj (fields : List (String × JsValue))

/-- A parsed JSON request body: an ordered key/value record with the
keys assumed distinct, as in a JavaScript object. -/
abbrev JsObject := List (String × JsValue)

/-- Property access data.k on a JavaScript object: the value when the
key is present, none (undefined) otherwise. -/
def getField (o : JsObject) (k : String) : Option JsValue :=
  (o.find? (fun p => p.1 == k)).map (fun p => p.2)

/-- JavaScript truthiness of a defined value: null, false, 0 and the
empty string are falsy; arrays and objects are always truthy. -/
def jsTruthy : JsValue → Bool
  | .vNull => false
  | .vBool b => b
  | .vNum q => !(q == 0)
  | .vStr s => !(s == "")
  | .vArr _ => true
  | .vObj _ => true

/-- Truthiness of a possibly-undefined value: undefined is falsy. -/
def optTruthy : Option JsValue → Bool
  | none => false
  | some v => jsTruthy v

/-- typeof x === string, on a possibly-undefined value. -/
def isStringType : Option JsValue → Bool
  | some (.vStr _) => true
  | _ => false

/-- typeof x === number, on a possibly-undefined value. -/
def isNumberType : Option JsValue → Bool
  | some (.vNum _) => true
  | _ => false

/-- typeof x === boolean, on a possibly-undefined value. -/
def isBooleanType : Option JsValue → Bool
  | some (.vBool _) => true
  | _ => false

/-- Number.isInteger(x): true exactly for number values that are
integral; false on every non-number, undefined included. -/
def isIntegerValue : Option JsValue → Bool
  | some (.vNum q) => q.den == 1
  | _ => false

/-- list.includes(x) for a list of string literals: strict equality, so
only a string value can match. -/
def isOneOfStrings (v : Option JsValue) (allowed : List String) : Bool :=
  match v with
  | some (.vStr s) => allowed.contains s
  | _ => false

/-- The error_type guard of the validator: fails exactly when the value
is neither undefined nor null and is not one of the four enumerated
category strings. -/
def errorTypeInvalid (v : Option JsValue) : Bool :=
  match v with
  | none => false
  | some .vNull => false
  | some (.vStr s) =>
      !(["ProviderNotFound", "PaymentValidationFailed",
         "AllRetriesFailed", "ApiCallFailed"].contains s)
  | some _ => true

/-- Result record of validateProviderCallFlow. -/
structure ValidationResult where
  isValid : Bool
  errors : List String

/-- One push onto the error accumulator: the singleton message when the
check failed, nothing otherwise. The source pushes sequentially; the
concatenation of these singletons below yields the same ordered list. -/
def checkError (failed : Bool) (msg : String) : List String :=
  if failed then [msg] else []

/-- Embedding of validateProviderCallFlow from src/index.ts: each
conjunct mirrors one if-statement of the source, in source order, and
isValid is the emptiness of the accumulated error list. -/
def validateProviderCallFlow (data : JsObject) : ValidationResult :=
  let errors : List String :=
    checkError (!optTruthy (getField data "tx_hash")
        || !isStringType (getField data "tx_hash"))
      "tx_hash is required and must be a string" ++
    checkError (!optTruthy (getField data "provider")
        || !isStringType (getField data "provider"))
      "provider is required and must be a string" ++
    checkError (!optTruthy (getField data "provider_node")
        || !isStringType (getField data "provider_node"))
      "provider_node is required and must be a string" ++
    checkError (!optTruthy (getField data "source_node")
        || !isStringType (getField data "source_node"))
      "source_node is required and must be a string" ++
    checkError (!isNumberType (getField data "arg_count")
        || !isIntegerValue (getField data "arg_count"))
      "arg_count is required and must be an integer" ++
    checkError (!isNumberType (getField data "price_usdc"))
      "price_usdc is required and must be a number" ++
    checkError (!isNumberType (getField data "transferred_usdc"))
      "transferred_usdc is required and must be a number" ++
    checkError (!optTruthy (getField data "status")
        || !isOneOfStrings (getField data "status") ["Success", "Failed"])
      "status is required and must be one of: Success, Failed" ++
    checkError (!optTruthy (getField data "started_at")
        || !isStringType (getField data "started_at"))
      "started_at is required and must be a valid RFC3339 timestamp string" ++
    checkError (!isNumberType (getField data "successful_attempt")
        || !isIntegerValue (getField data "successful_attempt"))
      "successful_attempt is required and must be an integer" ++
    checkError (!isNumberType (getField data "total_attempts")
        || !isIntegerValue (getField data "total_attempts"))
      "total_attempts is required and must be an integer" ++
    checkError (!isBooleanType (getField data "payment_validated"))
      "payment_validated is required and must be a boolean" ++
    checkError (errorTypeInvalid (getField data "error_type"))
      "error_type must be one of: ProviderNotFound, PaymentValidationFailed, AllRetriesFailed, ApiCallFailed, or null"
  { isValid := errors.length == 0, errors := errors }

/-- The eighteen parameter values bound to placeholders one through
eighteen of the upsert statement, in source order. The key column
tx_hash is typed String, matching the VARCHAR UNIQUE NOT NULL column
the conflict target compares on; the remaining payload columns keep
the JavaScript value handed to the driver. -/
structure UpsertParams where
  tx_hash : String
  provider : JsValue
  provider_node : JsValue
  source_node : JsValue
  arg_count : JsValue
  price_usdc : JsValue
  transferred_usdc : JsValue
  status : JsValue
  started_at : JsValue
  completed_at : JsValue
  total_duration_ms : JsValue
  successful_attempt : JsValue
  total_attempts : JsValue
  response_size_bytes : JsValue
  error_type : JsValue
  error_message : JsValue
  validation_error : JsValue
  payment_validated : JsValue

/-- One row of the hypergrid_events table: the eighteen inserted
columns plus the two server-assigned timestamps created_at and
updated_at, whose values are modelled as abstract instants (Nat). The
SERIAL id column plays no role in any claim and is omitted. -/
structure EventRow where
  tx_hash : String
  provider : JsValue
  provider_node : JsValue
  source_node : JsValue
  arg_count : JsValue
  price_usdc : JsValue
  transferred_usdc : JsValue
  status : JsValue
  started_at : JsValue
  completed_at : JsValue
  total_duration_ms : JsValue
  successful_attempt : JsValue
  total_attempts : JsValue
  response_size_bytes : JsValue
  error_type : JsValue
  error_message : JsValue
  validation_error : JsValue
  payment_validated : JsValue
  created_at : Nat
  updated_at : Nat

/-- The insert arm of the upsert: every column comes from the
parameters; created_at and updated_at take their column defaults
CURRENT_TIMESTAMP, that is, the present instant. -/
def insertRow (now : Nat) (p : UpsertParams) : EventRow :=
  { tx_hash := p.tx_hash
    provider := p.provider
    provider_node := p.provider_node
    source_node := p.source_node
    arg_count := p.arg_count
    price_usdc := p.price_usdc
    transferred_usdc := p.transferred_usdc
    status := p.status
    started_at := p.started_at
    completed_at := p.completed_at
    total_duration_ms := p.total_duration_ms
    successful_attempt := p.successful_attempt
    total_attempts := p.total_attempts
    response_size_bytes := p.response_size_bytes
    error_type := p.error_type
    error_message := p.error_message
    validation_error := p.validation_error
    payment_validated := p.payment_validated
    created_at := now
    updated_at := now }

/-- The ON CONFLICT DO UPDATE arm of the upsert: exactly the thirteen
columns listed in the SET clause of the source are overwritten from
the excluded row, updated_at is set to NOW(), and every other column
of the existing row, created_at included, is left as it was. -/
def conflictUpdate (now : Nat) (p : UpsertParams) (r : EventRow) : EventRow :=
  { r with
    provider := p.provider
    provider_node := p.provider_node
    source_node := p.source_node
    status := p.status
    completed_at := p.completed_at
    total_duration_ms := p.total_duration_ms
    successful_attempt := p.successful_attempt
    total_attempts := p.total_attempts
    response_size_bytes := p.response_size_bytes
    error_type := p.error_type
    error_message := p.error_message
    validation_error := p.validation_error
    payment_validated := p.payment_validated
    updated_at := now }

/-- Embedding of the upsert statement of src/index.ts against a table
state: when some row already carries the submitted tx_hash the
conflict arm rewrites that row in place, otherwise a fresh row is
appended. The UNIQUE constraint makes at most one row match. -/
def upsert (now : Nat) (p : UpsertParams) (table : List EventRow) :
    List EventRow :=
  if table.any (fun r => r.tx_hash == p.tx_hash) then
    table.map (fun r =>
      if r.tx_hash == p.tx_hash then conflictUpdate now p r else r)
  else
    table ++ [insertRow now p]

/-- Whitespace as removed by the trim method (the common ASCII
whitespace characters suffice for address strings). -/
def isJsSpace (c : Char) : Bool :=
  c == ' ' || c == '\t' || c == '\n' || c == '\r'

/-- Drop leading whitespace from a character list. -/
def dropLeadingSpaces : List Char → List Char
  | [] => []
  | c :: cs => if isJsSpace c then dropLeadingSpaces cs else c :: cs

/-- The trim method of a string: leading and trailing whitespace
removed. -/
def jsTrim (s : String) : String :=
  String.mk (dropLeadingSpaces (dropLeadingSpaces s.toList.reverse).reverse)

/-- Accumulator pass of split on the comma separator. -/
def splitOnCommaAux : List Char → List Char → List String
  | [], acc => [String.mk acc.reverse]
  | c :: cs, acc =>
      if c == ',' then
        String.mk acc.reverse :: splitOnCommaAux cs []
      else
        splitOnCommaAux cs (c :: acc)

/-- The split method on the comma separator; on the empty string it
yields the singleton list of the empty string, as in JavaScript. -/
def splitOnComma (s : String) : List String :=
  splitOnCommaAux s.toList []

/-- The ALLOWED_IPS environment option parsed as in the source: default
to the empty string when unset, split on commas, trim each entry, keep
only the truthy (non-empty) entries. -/
def parseAllowedIps (env : Option String) : List String :=
  ((splitOnComma (env.getD "")).map jsTrim).filter (fun s => !(s == ""))

/-- JavaScript x or-else null as used for the optional columns of the
upsert parameter list: a falsy value, the undefined of an absent key
included, becomes null; a truthy value passes through unchanged. -/
def orNull : Option JsValue → JsValue
  | none => .vNull
  | some v => if jsTruthy v then v else .vNull

/-- The string carried by a validated string field; the validator
guarantees the argument is a non-empty string wherever this is used. -/
def asString : Option JsValue → String
  | some (.vStr s) => s
  | _ => ""

/-- A required field passed straight through to the driver; the
validator guarantees presence wherever this is used. -/
def passThrough (v : Option JsValue) : JsValue :=
  v.getD .vNull

/-- The parameter list of the upsert call, built from the request body
exactly as in the source: required fields are passed directly, the
five optional fields go through or-else null. -/
def buildUpsertParams (flow : JsObject) : UpsertParams :=
  { tx_hash := asString (getField flow "tx_hash")
    provider := passThrough (getField flow "provider")
    provider_node := passThrough (getField flow "provider_node")
    source_node := passThrough (getField flow "source_node")
    arg_count := passThrough (getField flow "arg_count")
    price_usdc := passThrough (getField flow "price_usdc")
    transferred_usdc := passThrough (getField flow "transferred_usdc")
    status := passThrough (getField flow "status")
    started_at := passThrough (getField flow "started_at")
    completed_at := orNull (getField flow "completed_at")
    total_duration_ms := orNull (getField flow "total_duration_ms")
    successful_attempt := passThrough (getField flow "successful_attempt")
    total_attempts := passThrough (getField flow "total_attempts")
    response_size_bytes := orNull (getField flow "response_size_bytes")
    error_type := orNull (getField flow "error_type")
    error_message := orNull (getField flow "error_message")
    validation_error := orNull (getField flow "validation_error")
    payment_validated := passThrough (getField flow "payment_validated") }

/-- An HTTP response as produced by res.status(...).json(...): the
numeric status code and the JSON body. -/
structure HttpResponse where
  status : Nat
  body : JsValue

/-- Truthiness of the derived client address string: undefined and the
empty string are falsy. -/
def ipFalsy : Option String → Bool
  | none => true
  | some s => s == ""

/-- Embedding of the POST /api/data handler: the allow-list gates, the
body presence check, schema validation, then the upsert, whose
database outcome is the dbResult argument (ok carries no information,
error carries the thrown message). Returns the response together with
the table state after the request. -/
def postApiData (clientIp : Option String) (env : Option String)
    (body : Option JsObject) (now : Nat)
    (dbResult : Except String Unit) (table : List EventRow) :
    HttpResponse × List EventRow :=
  let allowedIps := parseAllowedIps env
  if allowedIps.length == 0 then
    ({ status := 500
       body := .vObj [("error", .vStr "Server misconfiguration"),
                      ("message", .vStr "No allowed IPs configured")] },
     table)
  else if ipFalsy clientIp
      || !(allowedIps.contains (clientIp.getD "")) then
    ({ status := 403
       body := .vObj [("error", .vStr "Forbidden"),
                      ("message", .vStr "IP address not authorized")] },
     table)
  else
    match body with
    | none =>
        ({ status := 400
           body := .vObj [("error", .vStr "No data provided"),
                          ("message", .vStr "Request body must contain data to store")] },
         table)
    | some flow =>
        if flow.length == 0 then
          ({ status := 400
             body := .vObj [("error", .vStr "No data provided"),
                            ("message", .vStr "Request body must contain data to store")] },
           table)
        else
          let validation := validateProviderCallFlow flow
          if !validation.isValid then
            ({ status := 400
               body := .vObj [("error", .vStr "Invalid data format"),
                              ("message", .vStr "Provider call flow data validation failed"),
                              ("details", .vArr (validation.errors.map .vStr))] },
             table)
          else
            match dbResult with
            | .error _ =>
                ({ status := 500
                   body := .vObj [("error", .vStr "Database persistence failed")] },
                 table)
            | .ok _ =>
                ({ status := 200
                   body := .vObj [("success", .vBool true),
                                  ("tx_hash", passThrough (getField flow "tx_hash"))] },
                 upsert now (buildUpsertParams flow) table)

/-- Embedding of the GET /health handler: the database round trip
either yields the current instant reported back as the timestamp, or
throws, in which case the caught message is echoed in the error field
with status 503. -/
def healthHandler (dbResult : Except String JsValue) : HttpResponse :=
  match dbResult with
  | .ok nowVal =>
      { status := 200
        body := .vObj [("status", .vStr "healthy"),
                       ("database", .vStr "connected"),
                       ("timestamp", nowVal)] }
  | .error msg =>
      { status := 503
        body := .vObj [("status", .vStr "unhealthy"),
                       ("database", .vStr "disconnected"),
                       ("error", .vStr msg)] }

/-- A concrete fully valid request body, carrying the two optional
fields total_duration_ms and error_message with falsy values (zero and
the empty string) and omitting the other optional fields. -/
def exFlow : JsObject :=
  [("tx_hash", .vStr "0xabc"), ("provider", .vStr "p1"),
   ("provider_node", .vStr "n1"), ("source_node", .vStr "n2"),
   ("arg_count", .vNum 2), ("price_usdc", .vNum (mkRat 3 2)),
   ("transferred_usdc", .vNum (mkRat 3 2)), ("status", .vStr "Success"),
   ("started_at", .vStr "2024-01-01T00:00:00Z"),
   ("successful_attempt", .vNum 1), ("total_attempts", .vNum 1),
   ("payment_validated", .vBool true),
   ("total_duration_ms", .vNum 0), ("error_message", .vStr "")]

/-- A concrete body whose five required string fields are all present
and string-typed but empty. -/
def emptyStringRecord : JsObject :=
  [("tx_hash", .vStr ""), ("provider", .vStr ""),
   ("provider_node", .vStr ""), ("source_node", .vStr ""),
   ("started_at", .vStr "")]

/-- A concrete body whose two price fields are present as numeric
strings rather than numbers. -/
def numericStringRecord : JsObject :=
  [("price_usdc", .vStr "1.5"), ("transferred_usdc", .vStr "1.5")]

/-- A concrete fully valid request body whose three integer fields are
negative integers. -/
def negativeIntRecord : JsObject :=
  [("tx_hash", .vStr "0xneg"), ("provider", .vStr "p1"),
   ("provider_node", .vStr "n1"), ("source_node", .vStr "n2"),
   ("arg_count", .vNum (-3)), ("price_usdc", .vNum (mkRat 3 2)),
   ("transferred_usdc", .vNum (mkRat 3 2)), ("status", .vStr "Success"),
   ("started_at", .vStr "2024-01-01T00:00:00Z"),
   ("successful_attempt", .vNum (-1)), ("total_attempts", .vNum (-2)),
   ("payment_validated", .vBool true)]

/-- A concrete parameter list for a first submission of tx 0xabc. -/
def exParamsA : UpsertParams :=
  { tx_hash := "0xabc"
    provider := .vStr "p1"
    provider_node := .vStr "n1"
    source_node := .vStr "n2"
    arg_count := .vNum 2
    price_usdc := .vNum (mkRat 3 2)
    transferred_usdc := .vNum (mkRat 3 2)
    status := .vStr "Success"
    started_at := .vStr "2024-01-01T00:00:00Z"
    completed_at := .vNull
    total_duration_ms := .vNull
    successful_attempt := .vNum 1
    total_attempts := .vNum 1
    response_size_bytes := .vNull
    error_type := .vNull
    error_message := .vNull
    validation_error := .vNull
    payment_validated := .vBool true }

/-- A concrete second submission of tx 0xabc differing from the first
on every column. -/
def exParamsB : UpsertParams :=
  { tx_hash := "0xabc"
    provider := .vStr "p2"
    provider_node := .vStr "n3"
    source_node := .vStr "n4"
    arg_count := .vNum 9
    price_usdc := .vNum (mkRat 7 4)
    transferred_usdc := .vNum (mkRat 1 4)
    status := .vStr "Failed"
    started_at := .vStr "2024-02-02T00:00:00Z"
    completed_at := .vStr "2024-02-02T00:00:05Z"
    total_duration_ms := .vNum 5000
    successful_attempt := .vNum 2
    total_attempts := .vNum 3
    response_size_bytes := .vNum 512
    error_type := .vStr "ApiCallFailed"
    error_message := .vStr "boom"
    validation_error := .vStr "detail"
    payment_validated := .vBool false }

theorem mem_checkError_iff (a msg : String) (c : Bool) :
    a ∈ checkError c msg ↔ c = true ∧ a = msg := by
  unfold checkError
  split <;> simp_all

/-- C2: for every input record missing any of the twelve required
fields, the validator output contains the error message naming that
field, and the twelve implications hold simultaneously, so errors for
distinct missing fields accumulate rather than short-circuit. -/
theorem validator_reports_every_missing_required_field (data : JsObject) :
    (getField data "tx_hash" = none →
      "tx_hash is required and must be a string" ∈
        (validateProviderCallFlow data).errors) ∧
    (getField data "provider" = none →
      "provider is required and must be a string" ∈
        (validateProviderCallFlow data).errors) ∧
    (getField data "provider_node" = none →
      "provider_node is required and must be a string" ∈
        (validateProviderCallFlow data).errors) ∧
    (getField data "source_node" = none →
      "source_node is required and must be a string" ∈
        (validateProviderCallFlow data).errors) ∧
    (getField data "arg_count" = none →
      "arg_count is required and must be an integer" ∈
        (validateProviderCallFlow data).errors) ∧
    (getField data "price_usdc" = none →
      "price_usdc is required and must be a number" ∈
        (validateProviderCallFlow data).errors) ∧
    (getField data "transferred_usdc" = none →
      "transferred_usdc is required and must be a number" ∈
        (validateProviderCallFlow data).errors) ∧
    (getField data "status" = none →
      "status is required and must be one of: Success, Failed" ∈
        (validateProviderCallFlow data).errors) ∧
    (getField data "started_at" = none →
      "started_at is required and must be a valid RFC3339 timestamp string" ∈
        (validateProviderCallFlow data).errors) ∧
    (getField data "successful_attempt" = none →
      "successful_attempt is required and must be an integer" ∈
        (validateProviderCallFlow data).errors) ∧
    (getField data "total_attempts" = none →
      "total_attempts is required and must be an integer" ∈
        (validateProviderCallFlow data).errors) ∧
    (getField data "payment_validated" = none →
      "payment_validated is required and must be a boolean" ∈
        (validateProviderCallFlow data).errors) := by
  refine ⟨?_, ?_, ?_, ?_, ?_, ?_, ?_, ?_, ?_, ?_, ?_, ?_⟩ <;>
    intro h <;>
    simp [validateProviderCallFlow, mem_checkError_iff, h, optTruthy,
      isStringType, isNumberType, isBooleanType, isIntegerValue,
      isOneOfStrings]

/-- C2 witness: the empty record is missing every required field and
receives all twelve error messages. -/
theorem validator_reports_every_missing_required_field_witness :
    "tx_hash is required and must be a string" ∈
      (validateProviderCallFlow []).errors ∧
    "provider is required and must be a string" ∈
      (validateProviderCallFlow []).errors ∧
    "provider_node is required and must be a string" ∈
      (validateProviderCallFlow []).errors ∧
    "source_node is required and must be a string" ∈
      (validateProviderCallFlow []).errors ∧
    "arg_count is required and must be an integer" ∈
      (validateProviderCallFlow []).errors ∧
    "price_usdc is required and must be a number" ∈
      (validateProviderCallFlow []).errors ∧
    "transferred_usdc is required and must be a number" ∈
      (validateProviderCallFlow []).errors ∧
    "status is required and must be one of: Success, Failed" ∈
      (validateProviderCallFlow []).errors ∧
    "started_at is required and must be a valid RFC3339 timestamp string" ∈
      (validateProviderCallFlow []).errors ∧
    "successful_attempt is required and must be an integer" ∈
      (validateProviderCallFlow []).errors ∧
    "total_attempts is required and must be an integer" ∈
      (validateProviderCallFlow []).errors ∧
    "payment_validated is required and must be a boolean" ∈
      (validateProviderCallFlow []).errors :=
  ⟨(validator_reports_every_missing_required_field []).1 rfl,
   (validator_reports_every_missing_required_field []).2.1 rfl,
   (validator_reports_every_missing_required_field []).2.2.1 rfl,
   (validator_reports_every_missing_required_field []).2.2.2.1 rfl,
   (validator_reports_every_missing_required_field []).2.2.2.2.1 rfl,
   (validator_reports_every_missing_required_field []).2.2.2.2.2.1 rfl,
   (validator_reports_every_missing_required_field []).2.2.2.2.2.2.1 rfl,
   (validator_reports_every_missing_required_field []).2.2.2.2.2.2.2.1 rfl,
   (validator_reports_every_missing_required_field []).2.2.2.2.2.2.2.2.1 rfl,
   (validator_reports_every_missing_required_field []).2.2.2.2.2.2.2.2.2.1 rfl,
   (validator_reports_every_missing_required_field []).2.2.2.2.2.2.2.2.2.2.1 rfl,
   (validator_reports_every_missing_required_field []).2.2.2.2.2.2.2.2.2.2.2 rfl⟩

/-- C3 counterexample: a record whose five string fields are all
present and string-typed but empty is rejected with the error naming
tx_hash (and likewise the other four), because the truthiness guard of
each check treats the empty string as absent. -/
theorem validator_rejects_empty_string_counterexample :
    getField emptyStringRecord "tx_hash" = some (.vStr "") ∧
    getField emptyStringRecord "started_at" = some (.vStr "") ∧
    "tx_hash is required and must be a string" ∈
      (validateProviderCallFlow emptyStringRecord).errors ∧
    "provider is required and must be a string" ∈
      (validateProviderCallFlow emptyStringRecord).errors ∧
    "provider_node is required and must be a string" ∈
      (validateProviderCallFlow emptyStringRecord).errors ∧
    "source_node is required and must be a string" ∈
      (validateProviderCallFlow emptyStringRecord).errors ∧
    "started_at is required and must be a valid RFC3339 timestamp string" ∈
      (validateProviderCallFlow emptyStringRecord).errors := by
  refine ⟨rfl, rfl, ?_, ?_, ?_, ?_, ?_⟩ <;> decide

/-- C3 (amended): for every input record in which each of tx_hash,
provider, provider_node, source_node and started_at is present,
string-typed and non-empty, the validator reports no error for any of
those five fields; a present empty string is rejected by the
truthiness guard. -/
theorem validator_accepts_nonempty_required_strings (data : JsObject)
    (s1 s2 s3 s4 s5 : String)
    (h1 : getField data "tx_hash" = some (.vStr s1)) (n1 : s1 ≠ "")
    (h2 : getField data "provider" = some (.vStr s2)) (n2 : s2 ≠ "")
    (h3 : getField data "provider_node" = some (.vStr s3)) (n3 : s3 ≠ "")
    (h4 : getField data "source_node" = some (.vStr s4)) (n4 : s4 ≠ "")
    (h5 : getField data "started_at" = some (.vStr s5)) (n5 : s5 ≠ "") :
    "tx_hash is required and must be a string" ∉
      (validateProviderCallFlow data).errors ∧
    "provider is required and must be a string" ∉
      (validateProviderCallFlow data).errors ∧
    "provider_node is required and must be a string" ∉
      (validateProviderCallFlow data).errors ∧
    "source_node is required and must be a string" ∉
      (validateProviderCallFlow data).errors ∧
    "started_at is required and must be a valid RFC3339 timestamp string" ∉
      (validateProviderCallFlow data).errors := by
  refine ⟨?_, ?_, ?_, ?_, ?_⟩ <;>
    simp [validateProviderCallFlow, mem_checkError_iff, h1, h2, h3, h4, h5,
      n1, n2, n3, n4, n5, optTruthy, jsTruthy, isStringType]

/-- C3 witness: on the concrete valid body the five string-field
errors are absent. -/
theorem validator_accepts_nonempty_required_strings_witness :
    "tx_hash is required and must be a string" ∉
      (validateProviderCallFlow exFlow).errors ∧
    "provider is required and must be a string" ∉
      (validateProviderCallFlow exFlow).errors ∧
    "provider_node is required and must be a string" ∉
      (validateProviderCallFlow exFlow).errors ∧
    "source_node is required and must be a string" ∉
      (validateProviderCallFlow exFlow).errors ∧
    "started_at is required and must be a valid RFC3339 timestamp string" ∉
      (validateProviderCallFlow exFlow).errors :=
  validator_accepts_nonempty_required_strings exFlow
    "0xabc" "p1" "n1" "n2" "2024-01-01T00:00:00Z"
    rfl (by decide) rfl (by decide) rfl (by decide) rfl (by decide)
    rfl (by decide)

/-- C4 counterexample: a record carrying price_usdc and
transferred_usdc as the numeric string 1.5 is rejected with the errors
naming both fields, because the check requires the value to be of
number type. -/
theorem validator_rejects_numeric_strings_counterexample :
    getField numericStringRecord "price_usdc" = some (.vStr "1.5") ∧
    getField numericStringRecord "transferred_usdc" = some (.vStr "1.5") ∧
    "price_usdc is required and must be a number" ∈
      (validateProviderCallFlow numericStringRecord).errors ∧
    "transferred_usdc is required and must be a number" ∈
      (validateProviderCallFlow numericStringRecord).errors := by
  refine ⟨rfl, rfl, ?_, ?_⟩ <;> decide

/-- C4 (amended): the validator reports the price_usdc error exactly
when that field is absent or not number-typed, and likewise for
transferred_usdc; a numeric string does not count as number-typed and
is rejected. -/
theorem validator_usdc_fields_number_typed (data : JsObject) :
    ("price_usdc is required and must be a number" ∈
        (validateProviderCallFlow data).errors ↔
      isNumberType (getField data "price_usdc") = false) ∧
    ("transferred_usdc is required and must be a number" ∈
        (validateProviderCallFlow data).errors ↔
      isNumberType (getField data "transferred_usdc") = false) := by
  constructor <;>
    simp [validateProviderCallFlow, mem_checkError_iff]

/-- C10: the validator imposes no sign constraint on the integer
fields: the concrete record whose arg_count, successful_attempt and
total_attempts are the negative integers minus three, minus one and
minus two, with every other required field valid, is accepted with an
empty error list. -/
theorem validator_accepts_negative_integers :
    getField negativeIntRecord "arg_count" = some (.vNum (-3)) ∧
    getField negativeIntRecord "successful_attempt" = some (.vNum (-1)) ∧
    getField negativeIntRecord "total_attempts" = some (.vNum (-2)) ∧
    (validateProviderCallFlow negativeIntRecord).isValid = true ∧
    (validateProviderCallFlow negativeIntRecord).errors = [] := by
  refine ⟨rfl, rfl, rfl, ?_, ?_⟩ <;> decide

/-- C1: submitting the same transaction identifier twice yields
exactly one row; the conflict arm overwrites provider, provider_node,
source_node, status, completed_at, total_duration_ms,
successful_attempt, total_attempts, response_size_bytes, error_type,
error_message, validation_error and payment_validated with the second
submission and stamps updated_at with the second instant, while
tx_hash, arg_count, price_usdc, transferred_usdc and started_at keep
the first submission and created_at keeps the first instant. -/
theorem upsert_twice_single_row_merge (p1 p2 : UpsertParams)
    (t1 t2 : Nat) (h : p2.tx_hash = p1.tx_hash) :
    upsert t2 p2 (upsert t1 p1 []) =
      [{ tx_hash := p1.tx_hash
         provider := p2.provider
         provider_node := p2.provider_node
         source_node := p2.source_node
         arg_count := p1.arg_count
         price_usdc := p1.price_usdc
         transferred_usdc := p1.transferred_usdc
         status := p2.status
         started_at := p1.started_at
         completed_at := p2.completed_at
         total_duration_ms := p2.total_duration_ms
         successful_attempt := p2.successful_attempt
         total_attempts := p2.total_attempts
         response_size_bytes := p2.response_size_bytes
         error_type := p2.error_type
         error_message := p2.error_message
         validation_error := p2.validation_error
         payment_validated := p2.payment_validated
         created_at := t1
         updated_at := t2 }] := by
  simp [upsert, insertRow, conflictUpdate, h]

/-- C1 witness: the two concrete submissions of tx 0xabc merge into
the single expected row. -/
theorem upsert_twice_single_row_merge_witness :
    exParamsB.tx_hash = exParamsA.tx_hash ∧
    upsert 2 exParamsB (upsert 1 exParamsA []) =
      [{ tx_hash := exParamsA.tx_hash
         provider := exParamsB.provider
         provider_node := exParamsB.provider_node
         source_node := exParamsB.source_node
         arg_count := exParamsA.arg_count
         price_usdc := exParamsA.price_usdc
         transferred_usdc := exParamsA.transferred_usdc
         status := exParamsB.status
         started_at := exParamsA.started_at
         completed_at := exParamsB.completed_at
         total_duration_ms := exParamsB.total_duration_ms
         successful_attempt := exParamsB.successful_attempt
         total_attempts := exParamsB.total_attempts
         response_size_bytes := exParamsB.response_size_bytes
         error_type := exParamsB.error_type
         error_message := exParamsB.error_message
         validation_error := exParamsB.validation_error
         payment_validated := exParamsB.payment_validated
         created_at := 1
         updated_at := 2 }] :=
  ⟨rfl, upsert_twice_single_row_merge exParamsA exParamsB 1 2 rfl⟩

/-- C7: after any upsert, rows not carrying the submitted transaction
identifier were already in the table unchanged; the row that carries
it has updated_at stamped with the present instant, and its created_at
is either the created_at of the row already present for that
identifier (an upsert never changes it) or, when no such row existed,
the present instant of this first insert. -/
theorem upsert_timestamp_discipline (p : UpsertParams) (now : Nat)
    (t : List EventRow) (r : EventRow) (h : r ∈ upsert now p t) :
    (r.tx_hash ≠ p.tx_hash → r ∈ t) ∧
    (r.tx_hash = p.tx_hash →
      r.updated_at = now ∧
      ((∃ r0 ∈ t, r0.tx_hash = p.tx_hash ∧ r.created_at = r0.created_at) ∨
       ((∀ r0 ∈ t, r0.tx_hash ≠ p.tx_hash) ∧ r.created_at = now))) := by
  unfold upsert at h
  by_cases hany : t.any (fun r0 => r0.tx_hash == p.tx_hash)
  · rw [if_pos hany] at h
    obtain ⟨r0, hr0, hfr⟩ := List.mem_map.mp h
    by_cases heq : r0.tx_hash = p.tx_hash
    · rw [if_pos (by simp [heq] : (r0.tx_hash == p.tx_hash) = true)] at hfr
      subst hfr
      exact ⟨fun hne => absurd heq hne,
        fun _ => ⟨rfl, Or.inl ⟨r0, hr0, heq, rfl⟩⟩⟩
    · rw [if_neg (by simp [heq] : ¬ (r0.tx_hash == p.tx_hash) = true)] at hfr
      subst hfr
      exact ⟨fun _ => hr0, fun hx => absurd hx heq⟩
  · rw [if_neg hany] at h
    have hall : ∀ r0 ∈ t, r0.tx_hash ≠ p.tx_hash := by
      intro r0 hr0 hx
      exact hany (List.any_eq_true.mpr ⟨r0, hr0, by simp [hx]⟩)
    rcases List.mem_append.mp h with hin | hsing
    · exact ⟨fun _ => hin, fun hx => absurd hx (hall r hin)⟩
    · have hr : r = insertRow now p := List.mem_singleton.mp hsing
      subst hr
      exact ⟨fun hne => absurd rfl hne,
        fun _ => ⟨rfl, Or.inr ⟨hall, rfl⟩⟩⟩

/-- C7 witness: the first insert of tx 0xabc into the empty table
stamps both timestamps with the present instant. -/
theorem upsert_timestamp_discipline_witness :
    ((insertRow 5 exParamsA).tx_hash ≠ exParamsA.tx_hash →
      insertRow 5 exParamsA ∈ ([] : List EventRow)) ∧
    ((insertRow 5 exParamsA).tx_hash = exParamsA.tx_hash →
      (insertRow 5 exParamsA).updated_at = 5 ∧
      ((∃ r0 ∈ ([] : List EventRow), r0.tx_hash = exParamsA.tx_hash ∧
          (insertRow 5 exParamsA).created_at = r0.created_at) ∨
       ((∀ r0 ∈ ([] : List EventRow), r0.tx_hash ≠ exParamsA.tx_hash) ∧
        (insertRow 5 exParamsA).created_at = 5))) :=
  upsert_timestamp_discipline exParamsA 5 [] (insertRow 5 exParamsA)
    (by simp [upsert])

/-- C5: for every request, whatever the body, the database outcome and
the table state, an empty configured allow-list yields the 500
misconfiguration response, and otherwise a candidate address that is
absent, empty or not an exact member of the allow-list yields the 403
Forbidden response with the exact body of the source; in both cases
the table is returned unchanged, so no database write occurs and the
access check precedes every body and schema check. -/
theorem access_guard_gates_request (clientIp env : Option String)
    (body : Option JsObject) (now : Nat) (dbResult : Except String Unit)
    (t : List EventRow) :
    (parseAllowedIps env = [] →
      postApiData clientIp env body now dbResult t =
        ({ status := 500
           body := .vObj [("error", .vStr "Server misconfiguration"),
                          ("message", .vStr "No allowed IPs configured")] },
         t)) ∧
    (parseAllowedIps env ≠ [] →
      (ipFalsy clientIp = true ∨
        (parseAllowedIps env).contains (clientIp.getD "") = false) →
      postApiData clientIp env body now dbResult t =
        ({ status := 403
           body := .vObj [("error", .vStr "Forbidden"),
                          ("message", .vStr "IP address not authorized")] },
         t)) := by
  constructor
  · intro h
    simp [postApiData, h]
  · intro hne hip
    have hlen : ((parseAllowedIps env).length == 0) = false := by
      simpa using hne
    rcases hip with hfalsy | hnotin
    · simp [postApiData, hlen, hfalsy]
    · have hmem : clientIp.getD "" ∉ parseAllowedIps env := by
        simpa using hnotin
      simp [postApiData, hlen, hmem]

/-- C5 witness: with the empty allow-list the concrete valid request
gets 500, and with allow-list 1.2.3.4 the same request from 9.9.9.9
gets 403; neither writes a row. -/
theorem access_guard_gates_request_witness :
    postApiData (some "9.9.9.9") (some "") (some exFlow) 0 (.ok ()) [] =
      ({ status := 500
         body := .vObj [("error", .vStr "Server misconfiguration"),
                        ("message", .vStr "No allowed IPs configured")] },
       []) ∧
    postApiData (some "9.9.9.9") (some "1.2.3.4") (some exFlow) 0 (.ok ()) [] =
      ({ status := 403
         body := .vObj [("error", .vStr "Forbidden"),
                        ("message", .vStr "IP address not authorized")] },
       []) :=
  ⟨(access_guard_gates_request (some "9.9.9.9") (some "") (some exFlow)
      0 (.ok ()) []).1 rfl,
   (access_guard_gates_request (some "9.9.9.9") (some "1.2.3.4")
      (some exFlow) 0 (.ok ()) []).2 (by decide) (Or.inr (by decide))⟩

theorem orNull_spec (o : Option JsValue) :
    (o = none → orNull o = .vNull) ∧
    ∀ v, o = some v →
      (jsTruthy v = true → orNull o = v) ∧
      (jsTruthy v = false → orNull o = .vNull) := by
  constructor
  · intro h
    subst h
    rfl
  · intro v h
    subst h
    constructor <;> intro hv <;> simp [orNull, hv]

/-- C6 counterexample: the accepted concrete body carries
total_duration_ms as the number zero and error_message as the empty
string, yet the row the handler persists holds null in both columns,
because the or-else-null coercion of the parameter list nulls every
falsy present value. -/
theorem optional_falsy_values_nulled_counterexample :
    getField exFlow "total_duration_ms" = some (.vNum 0) ∧
    getField exFlow "error_message" = some (.vStr "") ∧
    (validateProviderCallFlow exFlow).isValid = true ∧
    (postApiData (some "1.2.3.4") (some "1.2.3.4") (some exFlow) 7
        (.ok ()) []).2 =
      [insertRow 7 (buildUpsertParams exFlow)] ∧
    (buildUpsertParams exFlow).total_duration_ms = JsValue.vNull ∧
    (buildUpsertParams exFlow).error_message = JsValue.vNull :=
  ⟨rfl, rfl, by decide, rfl, rfl, rfl⟩

/-- C6 (amended): each of the five optional columns is persisted
unchanged when supplied with a truthy value, and as null both when
absent and when supplied with a falsy value such as zero or the empty
string. -/
theorem optional_columns_null_when_absent_or_falsy (flow : JsObject) :
    ((getField flow "completed_at" = none →
        (buildUpsertParams flow).completed_at = .vNull) ∧
      ∀ v, getField flow "completed_at" = some v →
        (jsTruthy v = true → (buildUpsertParams flow).completed_at = v) ∧
        (jsTruthy v = false →
          (buildUpsertParams flow).completed_at = .vNull)) ∧
    ((getField flow "total_duration_ms" = none →
        (buildUpsertParams flow).total_duration_ms = .vNull) ∧
      ∀ v, getField flow "total_duration_ms" = some v →
        (jsTruthy v = true →
          (buildUpsertParams flow).total_duration_ms = v) ∧
        (jsTruthy v = false →
          (buildUpsertParams flow).total_duration_ms = .vNull)) ∧
    ((getField flow "response_size_bytes" = none →
        (buildUpsertParams flow).response_size_bytes = .vNull) ∧
      ∀ v, getField flow "response_size_bytes" = some v →
        (jsTruthy v = true →
          (buildUpsertParams flow).response_size_bytes = v) ∧
        (jsTruthy v = false →
          (buildUpsertParams flow).response_size_bytes = .vNull)) ∧
    ((getField flow "error_message" = none →
        (buildUpsertParams flow).error_message = .vNull) ∧
      ∀ v, getField flow "error_message" = some v →
        (jsTruthy v = true → (buildUpsertParams flow).error_message = v) ∧
        (jsTruthy v = false →
          (buildUpsertParams flow).error_message = .vNull)) ∧
    ((getField flow "validation_error" = none →
        (buildUpsertParams flow).validation_error = .vNull) ∧
      ∀ v, getField flow "validation_error" = some v →
        (jsTruthy v = true →
          (buildUpsertParams flow).validation_error = v) ∧
        (jsTruthy v = false →
          (buildUpsertParams flow).validation_error = .vNull)) :=
  ⟨orNull_spec (getField flow "completed_at"),
   orNull_spec (getField flow "total_duration_ms"),
   orNull_spec (getField flow "response_size_bytes"),
   orNull_spec (getField flow "error_message"),
   orNull_spec (getField flow "validation_error")⟩

/-- C6 witness: on the concrete body the absent completed_at and the
falsy total_duration_ms and error_message all persist as null. -/
theorem optional_columns_null_witness :
    (buildUpsertParams exFlow).completed_at = JsValue.vNull ∧
    (buildUpsertParams exFlow).total_duration_ms = JsValue.vNull ∧
    (buildUpsertParams exFlow).error_message = JsValue.vNull :=
  ⟨(optional_columns_null_when_absent_or_falsy exFlow).1.1 rfl,
   (((optional_columns_null_when_absent_or_falsy exFlow).2.1).2
      (JsValue.vNum 0) rfl).2 (by decide),
   (((optional_columns_null_when_absent_or_falsy exFlow).2.2.2.1).2
      (JsValue.vStr "") rfl).2 (by decide)⟩

/-- C8: for every request that passes the access gate, the body
presence check and schema validation, a successful upsert yields the
200 response carrying success and the transaction identifier together
with the merged table, while a database failure, whatever its message,
yields the 500 response whose body is the fixed generic object naming
only a persistence failure, the message never appearing, and leaves
the table unchanged. -/
theorem persist_outcome_responses (clientIp env : Option String)
    (flow : JsObject) (now : Nat) (t : List EventRow)
    (hlen : ((parseAllowedIps env).length == 0) = false)
    (hip : ipFalsy clientIp = false)
    (hin : clientIp.getD "" ∈ parseAllowedIps env)
    (hbody : (flow.length == 0) = false)
    (hv : (validateProviderCallFlow flow).isValid = true) :
    postApiData clientIp env (some flow) now (.ok ()) t =
      ({ status := 200
         body := .vObj [("success", .vBool true),
                        ("tx_hash", passThrough (getField flow "tx_hash"))] },
       upsert now (buildUpsertParams flow) t) ∧
    ∀ msg : String,
      postApiData clientIp env (some flow) now (.error msg) t =
        ({ status := 500
           body := .vObj [("error", .vStr "Database persistence failed")] },
         t) := by
  constructor
  · simp [postApiData, hlen, hip, hin, hbody, hv]
  · intro msg
    simp [postApiData, hlen, hip, hin, hbody, hv]

/-- C8 witness: the concrete valid request from the allow-listed
address gets 200 and its row on success, and the fixed generic 500
body with no row on a database failure with a concrete message. -/
theorem persist_outcome_responses_witness :
    postApiData (some "1.2.3.4") (some "1.2.3.4") (some exFlow) 7
        (.ok ()) [] =
      ({ status := 200
         body := .vObj [("success", .vBool true),
                        ("tx_hash", passThrough (getField exFlow "tx_hash"))] },
       upsert 7 (buildUpsertParams exFlow) []) ∧
    postApiData (some "1.2.3.4") (some "1.2.3.4") (some exFlow) 7
        (.error "connection refused") [] =
      ({ status := 500
         body := .vObj [("error", .vStr "Database persistence failed")] },
       []) :=
  ⟨(persist_outcome_responses (some "1.2.3.4") (some "1.2.3.4") exFlow 7 []
      (by decide) rfl (by decide) (by decide) (by decide)).1,
   (persist_outcome_responses (some "1.2.3.4") (some "1.2.3.4") exFlow 7 []
      (by decide) rfl (by decide) (by decide) (by decide)).2
     "connection refused"⟩

/-- C9: the health endpoint answers 200 with status healthy, database
connected and the round-trip timestamp when the probe query succeeds,
and 503 with status unhealthy, database disconnected and the caught
message in the error field when it fails. -/
theorem health_endpoint_responses (nowVal : JsValue) (msg : String) :
    healthHandler (.ok nowVal) =
      { status := 200
        body := .vObj [("status", .vStr "healthy"),
                       ("database", .vStr "connected"),
                       ("timestamp", nowVal)] } ∧
    healthHandler (.error msg) =
      { status := 503
        body := .vObj [("status", .vStr "unhealthy"),
                       ("database", .vStr "disconnected"),
                       ("error", .vStr msg)] } :=
  ⟨rfl, rfl⟩

end HypergridDb
